import Mathlib

/-!
Verification of the native performance-now hook of
`src/ReactAndroid/src/main/jni/react/jni/NativeTime.h`.

The repository contains only the header, which declares the single function

  double reactAndroidNativePerformanceNowHook();

inside namespace `facebook::react`.  The declaration list of that header is
embedded directly below.  The behaviour of the hook (its body is not part of
the repository sources) is modelled from the specification: a read of the
platform monotonic clock, whose native (nanosecond) reading is divided by
10^6 to yield fractional milliseconds, failing fast (abort) when the platform
clock facility is unavailable.  Doubles are modelled as exact rationals, so
every representable value is finite by construction.
-/

/-- Modelled from the spec: the ambient platform monotonic clock backing the
hook.  The clock body is missing from the sources (only the declaration in
`NativeTime.h` is present).  `readingNs k` is the native nanosecond reading
the clock delivers to the k-th query in program order; per the glossary a
monotonic clock never reports a value earlier than a previously reported one,
which is the `mono` field.  `available` records whether the platform clock
facility exists at all. -/
structure PlatformClock where
  available : Bool
  readingNs : ℕ → ℕ
  mono : ∀ i j : ℕ, i ≤ j → readingNs i ≤ readingNs j

/-- Result of one call to the hook: either a milliseconds value handed to the
caller, or a fail-fast process abort (no in-band value at all). -/
inductive NowResult where
  | value (t : ℚ)
  | abort
deriving DecidableEq

/-- Modelled from the spec: the body of `reactAndroidNativePerformanceNowHook`
(declared in `src/ReactAndroid/src/main/jni/react/jni/NativeTime.h`; its
definition is not under the sources).  It adapts the platform monotonic
clock's native nanosecond reading into milliseconds via scalar division by
10^6, preserving the fractional component, and fails fast (abort) if the
platform clock facility is unavailable. -/
def reactAndroidNativePerformanceNowHook (c : PlatformClock) (k : ℕ) : NowResult :=
  if c.available then NowResult.value ((c.readingNs k : ℚ) / 1000000)
  else NowResult.abort

/-- System state surrounding a call: the ambient platform clock, the
program-order position of the next call, and an abstract view `rest` of every
other part of the system.  The component itself contributes no field: per the
spec it holds no internal state across calls. -/
structure SystemState (α : Type) where
  clock : PlatformClock
  callIndex : ℕ
  rest : α

/-- One call to the hook as a transition on the surrounding system state: it
produces the result of the hook at the current program-order position and
advances that position.  (The position is part of the ambient program order,
not of the component.) -/
def nowStep {α : Type} (s : SystemState α) : NowResult × SystemState α :=
  (reactAndroidNativePerformanceNowHook s.clock s.callIndex,
   { s with callIndex := s.callIndex + 1 })

/-- A concrete available clock ticking one millisecond per query, used by the
witnesses. -/
def sampleClock : PlatformClock where
  available := true
  readingNs := fun n => 1000000 * n
  mono := fun i j h => Nat.mul_le_mul_left 1000000 h

/-- A concrete available clock stuck at 1.5 ms worth of nanoseconds, used to
exhibit preservation of the fractional component. -/
def fracClock : PlatformClock where
  available := true
  readingNs := fun _ => 1500000
  mono := fun i j h => le_refl 1500000

/-- A platform with no monotonic clock facility, used to exercise the
fail-fast path. -/
def unavailableClock : PlatformClock where
  available := false
  readingNs := fun _ => 0
  mono := fun i j h => le_refl 0

/-- Embedding of the declaration list of
`src/ReactAndroid/src/main/jni/react/jni/NativeTime.h`: namespace
`facebook::react` declares exactly one entity, the function
`reactAndroidNativePerformanceNowHook`. -/
inductive NativeTimeHeaderDecl where
  | reactAndroidNativePerformanceNowHookDecl
deriving DecidableEq

/-- The C++ return-type shapes the claims distinguish: a plain double, an
optional, an integer status code, or a tagged ok/error result. -/
inductive CppType where
  | double
  | optional (t : CppType)
  | statusCode
  | taggedResult (ok err : CppType)
deriving DecidableEq

/-- A C++ function signature: argument types and the single return type. -/
structure CppSignature where
  argTypes : List CppType
  retType : CppType
deriving DecidableEq

/-- The signature the header gives each of its declarations: the hook takes
no arguments and returns a plain `double` (milliseconds). -/
def declSignature : NativeTimeHeaderDecl → CppSignature
  | NativeTimeHeaderDecl.reactAndroidNativePerformanceNowHookDecl =>
      { argTypes := [], retType := CppType.double }

/-- Whether a return-type shape carries an in-band error channel: optionals,
status codes and tagged results do, a plain double does not. -/
def hasInBandErrorChannel : CppType → Bool
  | CppType.double => false
  | CppType.optional _ => true
  | CppType.statusCode => true
  | CppType.taggedResult _ _ => true

/-- The timestamp entity of the data model: a single scalar number of
milliseconds (doubles modelled as exact rationals). -/
def Timestamp : Type := ℚ

/-- Values inhabiting each C++ return-type shape. -/
def interpCpp : CppType → Type
  | CppType.double => ℚ
  | CppType.optional t => Option (interpCpp t)
  | CppType.statusCode => ℤ
  | CppType.taggedResult a b => Sum (interpCpp a) (interpCpp b)

/-- C1: for any two calls to the hook made in program order in one process
lifetime (call positions i ≤ j against the same platform clock), the value
returned by the later call is at least the value returned by the earlier one;
the returned value never decreases. -/
theorem now_monotone (c : PlatformClock) (i j : ℕ) (hij : i ≤ j) (t1 t2 : ℚ)
    (h1 : reactAndroidNativePerformanceNowHook c i = NowResult.value t1)
    (h2 : reactAndroidNativePerformanceNowHook c j = NowResult.value t2) :
    t1 ≤ t2 := by
  unfold reactAndroidNativePerformanceNowHook at h1 h2
  by_cases hav : c.available
  · simp only [hav, if_true, NowResult.value.injEq] at h1 h2
    subst h1
    subst h2
    have hmono := c.mono i j hij
    have hcast : (c.readingNs i : ℚ) ≤ (c.readingNs j : ℚ) := by exact_mod_cast hmono
    have hpos : (0 : ℚ) ≤ 1000000 := by norm_num
    exact div_le_div_of_nonneg_right hcast hpos
  · simp [hav] at h1

/-- Witness for C1 at the sample clock: calls at positions 0 and 2 return 0
and 2 milliseconds, and the theorem yields 0 ≤ 2. -/
theorem now_monotone_witness :
    reactAndroidNativePerformanceNowHook sampleClock 0 = NowResult.value 0 ∧
    reactAndroidNativePerformanceNowHook sampleClock 2 = NowResult.value 2 ∧
    (0 : ℚ) ≤ 2 := by
  have h1 : reactAndroidNativePerformanceNowHook sampleClock 0 = NowResult.value 0 := by
    unfold reactAndroidNativePerformanceNowHook sampleClock
    norm_num
  have h2 : reactAndroidNativePerformanceNowHook sampleClock 2 = NowResult.value 2 := by
    unfold reactAndroidNativePerformanceNowHook sampleClock
    norm_num
  exact ⟨h1, h2, now_monotone sampleClock 0 2 (by norm_num) 0 2 h1 h2⟩

/-- C2: the header's public interface is exactly one declaration, the
zero-argument function `reactAndroidNativePerformanceNowHook`, returning a
single `double` (milliseconds) result. -/
theorem header_single_zero_arg_double (d e : NativeTimeHeaderDecl) :
    d = NativeTimeHeaderDecl.reactAndroidNativePerformanceNowHookDecl ∧
    d = e ∧
    (declSignature d).argTypes = [] ∧
    (declSignature d).retType = CppType.double := by
  cases d
  cases e
  exact ⟨rfl, rfl, rfl, rfl⟩

/-- C3: whenever the platform clock is available, the value the hook returns
is exactly the native nanosecond reading divided by 10^6, and the division is
exact scalar division (multiplying back by 10^6 recovers the native reading),
so the sub-millisecond fractional component is preserved. -/
theorem now_value_is_native_div (c : PlatformClock) (k : ℕ)
    (hav : c.available = true) :
    reactAndroidNativePerformanceNowHook c k
      = NowResult.value ((c.readingNs k : ℚ) / 1000000) ∧
    ∀ t : ℚ, reactAndroidNativePerformanceNowHook c k = NowResult.value t →
      t * 1000000 = (c.readingNs k : ℚ) := by
  constructor
  · unfold reactAndroidNativePerformanceNowHook
    simp [hav]
  · intro t ht
    unfold reactAndroidNativePerformanceNowHook at ht
    simp only [hav, if_true, NowResult.value.injEq] at ht
    subst ht
    field_simp

/-- Witness for C3 at the fractional clock: a native reading of 1500000 ns
yields exactly 3/2 ms, whose fractional half-millisecond is preserved. -/
theorem now_value_is_native_div_witness :
    fracClock.available = true ∧
    reactAndroidNativePerformanceNowHook fracClock 0
      = NowResult.value ((1500000 : ℚ) / 1000000) ∧
    ((3 : ℚ) / 2) * 1000000 = (1500000 : ℚ) := by
  have h := now_value_is_native_div fracClock 0 rfl
  refine ⟨rfl, h.1, ?_⟩
  have h32 : reactAndroidNativePerformanceNowHook fracClock 0
      = NowResult.value ((3 : ℚ) / 2) := by
    unfold reactAndroidNativePerformanceNowHook fracClock
    norm_num
  exact h.2 ((3 : ℚ) / 2) h32

/-- C4: every value the hook returns is a non-negative number (and, doubles
being modelled as exact rationals, finite by construction — abort returns no
value at all). -/
theorem now_nonneg (c : PlatformClock) (k : ℕ) (t : ℚ)
    (h : reactAndroidNativePerformanceNowHook c k = NowResult.value t) :
    0 ≤ t := by
  unfold reactAndroidNativePerformanceNowHook at h
  by_cases hav : c.available
  · simp only [hav, if_true, NowResult.value.injEq] at h
    subst h
    positivity
  · simp [hav] at h

/-- Witness for C4: the sample clock at position 3 returns the value 3, and
the theorem yields 0 ≤ 3. -/
theorem now_nonneg_witness :
    reactAndroidNativePerformanceNowHook sampleClock 3 = NowResult.value 3 ∧
    (0 : ℚ) ≤ 3 := by
  have h : reactAndroidNativePerformanceNowHook sampleClock 3 = NowResult.value 3 := by
    unfold reactAndroidNativePerformanceNowHook sampleClock
    norm_num
  exact ⟨h, now_nonneg sampleClock 3 3 h⟩

/-- C5: under normal operation (the platform clock is available) every call
to the hook succeeds: it never returns the abort outcome, and it does return
a milliseconds value. -/
theorem now_never_errors (c : PlatformClock) (k : ℕ)
    (hav : c.available = true) :
    reactAndroidNativePerformanceNowHook c k ≠ NowResult.abort ∧
    ∃ t : ℚ, reactAndroidNativePerformanceNowHook c k = NowResult.value t := by
  unfold reactAndroidNativePerformanceNowHook
  simp [hav]

/-- Witness for C5 at the sample clock, position 1. -/
theorem now_never_errors_witness :
    sampleClock.available = true ∧
    reactAndroidNativePerformanceNowHook sampleClock 1 ≠ NowResult.abort :=
  ⟨rfl, (now_never_errors sampleClock 1 rfl).1⟩

/-- C6: when the platform monotonic clock facility is unavailable the hook
aborts the process rather than return any sentinel or default value, and any
value it does return is a genuine clock reading: the native nanosecond
reading of an available clock divided by 10^6. -/
theorem now_fail_fast (c : PlatformClock) (k : ℕ) :
    (c.available = false → reactAndroidNativePerformanceNowHook c k = NowResult.abort) ∧
    (∀ t : ℚ, reactAndroidNativePerformanceNowHook c k = NowResult.value t →
      c.available = true ∧ t = (c.readingNs k : ℚ) / 1000000) := by
  constructor
  · intro hav
    unfold reactAndroidNativePerformanceNowHook
    simp [hav]
  · intro t ht
    unfold reactAndroidNativePerformanceNowHook at ht
    by_cases hav : c.available
    · simp only [hav, if_true, NowResult.value.injEq] at ht
      exact ⟨hav, ht.symm⟩
    · simp [hav] at ht

/-- Witness for C6: on the clockless platform the hook aborts. -/
theorem now_fail_fast_witness :
    unavailableClock.available = false ∧
    reactAndroidNativePerformanceNowHook unavailableClock 0 = NowResult.abort :=
  ⟨rfl, (now_fail_fast unavailableClock 0).1 rfl⟩

/-- C7: a call to the hook is a pure read: the transition leaves the platform
clock and every other part of the system untouched, and its result depends
only on the ambient clock and the program-order position — the component has
no internal state that could influence or be changed by the call. -/
theorem now_pure {α : Type} (s t : SystemState α)
    (hc : s.clock = t.clock) (hk : s.callIndex = t.callIndex) :
    (nowStep s).2.clock = s.clock ∧
    (nowStep s).2.rest = s.rest ∧
    (nowStep s).1 = (nowStep t).1 := by
  refine ⟨rfl, rfl, ?_⟩
  unfold nowStep
  rw [hc, hk]

/-- Witness for C7: two system states sharing the sample clock and position 0
but with different surrounding state yield identical results and the
transition leaves clock and surroundings unchanged. -/
theorem now_pure_witness :
    (nowStep { clock := sampleClock, callIndex := 0, rest := (0 : ℕ) }).2.clock
      = sampleClock ∧
    (nowStep { clock := sampleClock, callIndex := 0, rest := (0 : ℕ) }).2.rest
      = (0 : ℕ) ∧
    (nowStep { clock := sampleClock, callIndex := 0, rest := (0 : ℕ) }).1
      = (nowStep { clock := sampleClock, callIndex := 0, rest := (37 : ℕ) }).1 :=
  now_pure { clock := sampleClock, callIndex := 0, rest := (0 : ℕ) }
    { clock := sampleClock, callIndex := 0, rest := (37 : ℕ) } rfl rfl

/-- C9: every call to the hook terminates: the transition always completes
synchronously, producing a result and a successor state in a single step
(the model is a total function with no recursion, suspension or blocking). -/
theorem now_terminates {α : Type} (s : SystemState α) :
    ∃ (r : NowResult) (s2 : SystemState α), nowStep s = (r, s2) :=
  ⟨(nowStep s).1, (nowStep s).2, rfl⟩

/-- C10: the header's declared return type is a plain `double` — a shape with
no in-band error channel (not an optional, status code or tagged result) —
and its values are exactly the timestamp scalars, so any call that returns
necessarily returns a timestamp value. -/
theorem header_no_inband_error (d : NativeTimeHeaderDecl) :
    (declSignature d).retType = CppType.double ∧
    hasInBandErrorChannel (declSignature d).retType = false ∧
    interpCpp (declSignature d).retType = Timestamp := by
  cases d
  exact ⟨rfl, rfl, rfl⟩
